import Mathlib

/-!
Shallow embedding of the E-LOVE chat service (python sources under
`e-love-chat-service/`).  The persistence layer is modelled as an in-memory
store of conversation and message rows; SQLAlchemy queries become list
filters, `scalar_one_or_none` becomes a three-way result on the filtered
rows, and `fastapi.HTTPException` becomes an explicit error value.  UUID
strings are modelled as plain strings (the services call `UUID(str(x))`
only as a format check / normalisation; all inputs quantified over here are
identities already stored, which are well-formed, so parsing is identity).
Database-generated values (new row ids, `created_at` timestamps) are passed
as explicit arguments.
-/

namespace ELoveChat

/-- Mirror of `fastapi.HTTPException`: a status code and a detail string. -/
structure HTTPError where
  status_code : Nat
  detail : String
deriving Repr, DecidableEq

/-- Row of the `conversations` table (`core/db/models/chat/conversations.py`,
class `Conversations`): two participant id strings, a soft-delete flag and an
optional deletion timestamp; `id` comes from the shared `BaseModel`. -/
structure Conversations where
  id : String
  user_first_id : String
  user_second_id : String
  is_deleted : Bool
  deleted_at : Option Nat
deriving Repr, DecidableEq

/-- `MessageStatus` enum from `core/db/models/chat/message.py`.  The member
`DELIVERED` carries the misspelled value string "DELIVIRED" in the source. -/
inductive MessageStatus where
  | SENT
  | DELIVERED
  | READ
deriving Repr, DecidableEq

/-- The `.value` of each enum member, exactly as written in the source
(`DELIVERED = "DELIVIRED"`). -/
def MessageStatus.value : MessageStatus → String
  | .SENT => "SENT"
  | .DELIVERED => "DELIVIRED"
  | .READ => "READ"

/-- Python `MessageStatus(s)`: value-based enum lookup; `none` models the
`ValueError` raised when no member has value `s`. -/
def MessageStatus.ofValue (s : String) : Option MessageStatus :=
  if s = "SENT" then some .SENT
  else if s = "DELIVIRED" then some .DELIVERED
  else if s = "READ" then some .READ
  else none

/-- Row of the `message` table.  The services import the model class under
the name `Message`; the provided model file defines the same columns on the
class `Messages` (conversation_id, sender_id, content, status) with `id` and
`created_at` coming from the shared `BaseModel`.  There is no recipient
column: the recipient is validated by `create_message` but never stored. -/
structure Message where
  id : String
  conversation_id : String
  sender_id : String
  content : String
  status : MessageStatus
  created_at : Nat
deriving Repr, DecidableEq

/-- The in-memory model of the relational store: the rows of the two tables,
in insertion order. -/
structure DB where
  conversations : List Conversations
  messages : List Message
deriving Repr, DecidableEq

/-- Result of SQLAlchemy's `Result.scalar_one_or_none()`: `none` for zero
rows, the row itself for exactly one, and `multiple` for the
`MultipleResultsFound` exception raised on two or more rows. -/
inductive ScalarResult (α : Type) where
  | none
  | one (a : α)
  | multiple
deriving Repr, DecidableEq

def scalarOneOrNone {α : Type} : List α → ScalarResult α
  | [] => .none
  | [a] => .one a
  | _ :: _ :: _ => .multiple

/-- `select(Conversations).where(Conversations.id == cid)`. -/
def convsWithId (db : DB) (cid : String) : List Conversations :=
  db.conversations.filter (fun c => c.id == cid)

/-- `select(Conversations).where(user_first_id == f, user_second_id == s)`. -/
def convsWithPair (db : DB) (f s : String) : List Conversations :=
  db.conversations.filter (fun c => c.user_first_id == f && c.user_second_id == s)

/-- `select(Message).where(Message.id == mid)`. -/
def msgsWithId (db : DB) (mid : String) : List Message :=
  db.messages.filter (fun m => m.id == mid)

/-- Python truthiness test `not x` on an optional string field obtained from
`data.get(...)`: true for absent (`None`) and for the empty string. -/
def falsy : Option String → Bool
  | none => true
  | some s => s == ""

/-- `ConversationsService.get_conversation_by_id`.  The function's `try`
block raises `HTTPException(404)` when no row matches, but the only handler
is a blanket `except Exception` (and `fastapi.HTTPException` is a subclass
of `Exception`), so the 404 — like the `MultipleResultsFound` case — is
caught, rolled back, and re-raised as `HTTPException(500)`.  Unlike its
sibling `MessagesService.get_message_by_id`, there is no
`except HTTPException: raise` guard, so every failure surfaces as 500. -/
def get_conversation_by_id (db : DB) (cid : String) : Except HTTPError Conversations :=
  match scalarOneOrNone (convsWithId db cid) with
  | .one c => .ok c
  | .none => .error ⟨500, "Unexpected server error!"⟩
  | .multiple => .error ⟨500, "Unexpected server error!"⟩

/-- `ConversationsService.create_conversation`.  `newId` is the id the store
assigns if a new row is inserted; the pair is canonicalised by the source's
`if user_first_id < user_second_id` swap (string comparison), then looked up
so that an existing conversation on the same canonical pair is returned
unchanged. -/
def create_conversation (db : DB) (user_first_id user_second_id : Option String)
    (newId : String) : Except HTTPError Conversations × DB :=
  if falsy user_first_id || falsy user_second_id then
    (.error ⟨400, "Missing user IDs"⟩, db)
  else
    let a := user_first_id.getD ""
    let b := user_second_id.getD ""
    if a == b then
      (.error ⟨400, "Cannot create conversation with the same user"⟩, db)
    else
      let f := if a < b then a else b
      let s := if a < b then b else a
      match scalarOneOrNone (convsWithPair db f s) with
      | .one existing => (.ok existing, db)
      | .multiple => (.error ⟨500, "Unexpected server error!"⟩, db)
      | .none =>
        let new_conversation : Conversations := ⟨newId, f, s, false, none⟩
        (.ok new_conversation,
         { db with conversations := db.conversations ++ [new_conversation] })

/-- `ConversationsService.delete_conversation`.  The module
`conversations_service.py` never imports `datetime`, so the statement
`conversation.deleted_at = datetime.utcnow()` raises `NameError` on every
call that reaches it; the `except HTTPException` clause does not match a
`NameError`, so the blanket `except Exception` rolls the session back
(undoing the in-memory `is_deleted = True`) and raises
`HTTPException(500)`.  Errors from `get_conversation_by_id` are re-raised
unchanged by the `except HTTPException` clause. -/
def delete_conversation (db : DB) (cid : String) : Except HTTPError Conversations × DB :=
  match get_conversation_by_id db cid with
  | .error e => (.error e, db)
  | .ok _ => (.error ⟨500, "Unexpected server error!"⟩, db)

/-- The `data` dict passed to `MessagesService.create_message`; each field is
`data.get(key)`, hence optional. -/
structure CreateMessageData where
  conversation_id : Option String
  sender_id : Option String
  recipient_id : Option String
  content : Option String
deriving Repr, DecidableEq

/-- `MessagesService.create_message`.  Steps, in source order: required-field
truthiness check (400); UUID conversion (modelled as identity on well-formed
ids; a falsy recipient becomes `None` by `... if recipient_id else None`);
conversation lookup by id with no `is_deleted` filter (404 only when no row
exists at all); sender membership in `{user_first_id, user_second_id}` (403);
recipient membership in the same set when a recipient was given (403);
otherwise the message is inserted with status SENT.  `newId` and `now` are
the store-assigned id and `created_at` of the inserted row. -/
def create_message (db : DB) (data : CreateMessageData) (newId : String) (now : Nat) :
    Except HTTPError Message × DB :=
  if falsy data.conversation_id || falsy data.sender_id || falsy data.content then
    (.error ⟨400, "Missing required fields"⟩, db)
  else
    let conversation_uuid := data.conversation_id.getD ""
    let sender_uuid := data.sender_id.getD ""
    let recipient_uuid : Option String :=
      if falsy data.recipient_id then none else data.recipient_id
    match scalarOneOrNone (convsWithId db conversation_uuid) with
    | .none => (.error ⟨404, "Conversation not found"⟩, db)
    | .multiple => (.error ⟨500, "Unexpected server error!"⟩, db)
    | .one conversation =>
      if !(sender_uuid == conversation.user_first_id
            || sender_uuid == conversation.user_second_id) then
        (.error ⟨403, "Sender not authorized in this conversation"⟩, db)
      else
        let new_message : Message :=
          ⟨newId, conversation_uuid, sender_uuid, data.content.getD "", .SENT, now⟩
        let persisted : Except HTTPError Message × DB :=
          (.ok new_message, { db with messages := db.messages ++ [new_message] })
        match recipient_uuid with
        | some r =>
          if !(r == conversation.user_first_id || r == conversation.user_second_id) then
            (.error ⟨403, "Recipient not authorized in this conversation"⟩, db)
          else persisted
        | none => persisted

/-- `MessagesService.get_message_by_id`.  This one does have the
`except HTTPException: raise` guard, so the 404 propagates. -/
def get_message_by_id (db : DB) (mid : String) : Except HTTPError Message :=
  match scalarOneOrNone (msgsWithId db mid) with
  | .one m => .ok m
  | .none => .error ⟨404, "Message not found"⟩
  | .multiple => .error ⟨500, "Unexpected server error!"⟩

/-- `MessagesService.update_message` with `data = {"status": status}`.
Validation is only: the status field is truthy, and the string is a value of
`MessageStatus` (else 400 "Invalid status value").  The current status of
the message is never consulted: whatever valid status is supplied is written
unconditionally onto the row found by `get_message_by_id`. -/
def update_message (db : DB) (mid : String) (status : Option String) :
    Except HTTPError Message × DB :=
  if falsy status then
    (.error ⟨400, "Missing status field"⟩, db)
  else
    match MessageStatus.ofValue (status.getD "") with
    | none => (.error ⟨400, "Invalid status value"⟩, db)
    | some new_status_enum =>
      match get_message_by_id db mid with
      | .error e => (.error e, db)
      | .ok m =>
        let setStatus : Message → Message :=
          fun x => if x.id == mid then { x with status := new_status_enum } else x
        (.ok { m with status := new_status_enum },
         { db with messages := db.messages.map setStatus })

/-- The methods defined on the class `MessagesService`
(`core/services/message/message_service.py`): Python attribute lookup on a
service instance resolves exactly these names. -/
def messagesServiceMethods : List String :=
  ["get_message_by_id", "create_message", "update_message", "delete_message"]

/-- Result of a FastAPI endpoint call: a value, an `HTTPException` mapped to
its status, or an unhandled Python `AttributeError` (which FastAPI turns
into a bare 500 response). -/
inductive EndpointResult (α : Type) where
  | ok (a : α)
  | httpError (e : HTTPError)
  | attributeError (missing : String)
deriving Repr, DecidableEq

/-- Modelled from the spec: `listMessages(conversationId) -> ordered sequence
of Message, ascending by creation time`.  The sources define no such
operation (`MessagesService.get_last_conversation_history`, which the
endpoint calls, exists nowhere in the repository), so the success behaviour
the endpoint docstring promises is taken from the spec's words; it is used
only for the dead success branch of `get_conversation_messages`. -/
def insertByTime (m : Message) : List Message → List Message
  | [] => [m]
  | x :: xs => if m.created_at ≤ x.created_at then m :: x :: xs else x :: insertByTime m xs

def sortByTime : List Message → List Message
  | [] => []
  | x :: xs => insertByTime x (sortByTime xs)

def listMessagesAsc (db : DB) (cid : String) : List Message :=
  sortByTime (db.messages.filter (fun m => m.conversation_id == cid))

/-- Endpoint `GET /messages/{conversation_id}`
(`api/v1/endpoints/chat/messages.py`, `get_conversation_messages`): it calls
`service.get_last_conversation_history(conversation_id)`, an attribute that
the class `MessagesService` does not define, so the call raises
`AttributeError` before touching the store. -/
def get_conversation_messages (db : DB) (conversation_id : String) :
    EndpointResult (List Message) :=
  if messagesServiceMethods.contains "get_last_conversation_history" then
    .ok (listMessagesAsc db conversation_id)
  else
    .attributeError "get_last_conversation_history"

/-- The raw `data` object of an inbound websocket JSON frame; fields absent
from the JSON are `none`. -/
structure RawSendData where
  sender_id : Option String
  recipient_id : Option String
  content : Option String
deriving Repr, DecidableEq

/-- A raw inbound websocket JSON frame as received by
`websocket.receive_json()`. -/
structure RawFrame where
  action : Option String
  frameData : Option RawSendData
deriving Repr, DecidableEq

/-- Validated `SendMessageData` pydantic schema
(`core/db/schemas/chat/websocket_actions.py`): all three fields required. -/
structure SendMessageData where
  sender_id : String
  recipient_id : String
  content : String
deriving Repr, DecidableEq

/-- Validated `SendMessageAction` pydantic schema: a required `action` string
and a required `data` payload. -/
structure SendMessageAction where
  action : String
  payload : SendMessageData
deriving Repr, DecidableEq

/-- `SendMessageAction(**raw_data)`: pydantic validation succeeds exactly
when every required field is present; `none` models the `ValidationError`
raised otherwise. -/
def parseSendMessageAction (raw : RawFrame) : Option SendMessageAction :=
  match raw.action, raw.frameData with
  | some act, some d =>
    match d.sender_id, d.recipient_id, d.content with
    | some s, some r, some c => some ⟨act, ⟨s, r, c⟩⟩
    | _, _, _ => Option.none
  | _, _ => Option.none

/-- Outbound websocket frames, mirroring `utils/chat/chat_responses.py`:
`message_saved_response(sender_id, recipient_id, content)` and
`error_response(detail)`. -/
inductive OutFrame where
  | messageSaved (sender_id recipient_id content : String)
  | errorFrame (detail : String)
deriving Repr, DecidableEq

/-- `handlers/chat/send_message_handler.py`, `handle_send_message`: builds
the payload dict from the four strings, calls
`MessagesService.create_message`, and on success returns the
`message_saved` response echoing the inputs. -/
def handle_send_message (db : DB) (conversation_id sender_id recipient_id content : String)
    (newId : String) (now : Nat) : Except HTTPError OutFrame × DB :=
  match create_message db ⟨some conversation_id, some sender_id, some recipient_id, some content⟩ newId now with
  | (.ok _, db') => (.ok (.messageSaved sender_id recipient_id content), db')
  | (.error e, db') => (.error e, db')

/-- State of the websocket receive loop after handling one inbound event:
`active` models `continue` (the loop keeps accepting frames), `closed`
models `break` / return (the session ends). -/
inductive SessionState where
  | active
  | closed
deriving Repr, DecidableEq

/-- One inbound event of the receive loop: a JSON frame, or the client
disconnecting (`WebSocketDisconnect`). -/
inductive Inbound where
  | jsonFrame (raw : RawFrame)
  | disconnect
deriving Repr, DecidableEq

/-- Result of one iteration of the websocket loop: the frames sent back on
this socket, the loop state afterwards, and the store. -/
structure StepResult where
  sent : List OutFrame
  state : SessionState
  db : DB
deriving Repr, DecidableEq

/-- One iteration of the `while True` receive loop of
`conversation_messages_websocket`
(`api/v1/endpoints/chat/conversations_ws.py`, lines 109-141), in the Active
state.  Control flow of the source, exception by exception:
a pydantic `ValidationError` from `SendMessageAction(**raw_data)` is neither
an `HTTPException` nor a `WebSocketDisconnect`, so it falls through to the
blanket `except Exception`, which sends
`error_response("Unexpected server error.")` and then `break`s out of the
loop; an `HTTPException` raised by the handler is sent as an error frame
followed by `continue`; an action with no registered handler yields
`error_response("Unknown action")` and `continue`; `WebSocketDisconnect`
`break`s without sending anything. -/
def wsStep (db : DB) (conversation_id : String) (inbound : Inbound)
    (newId : String) (now : Nat) : StepResult :=
  match inbound with
  | .disconnect => ⟨[], .closed, db⟩
  | .jsonFrame raw =>
    match parseSendMessageAction raw with
    | Option.none =>
      ⟨[.errorFrame "Unexpected server error."], .closed, db⟩
    | some message_action =>
      if message_action.action == "send_message" then
        match handle_send_message db conversation_id
            message_action.payload.sender_id message_action.payload.recipient_id
            message_action.payload.content newId now with
        | (.ok response, db') => ⟨[response], .active, db'⟩
        | (.error he, db') => ⟨[.errorFrame he.detail], .active, db'⟩
      else
        ⟨[.errorFrame "Unknown action"], .active, db⟩

/-! Sample store contents used by witnesses and counterexamples. -/

/-- A live conversation between participants "a" and "b". -/
def convAB : Conversations := ⟨"c1", "a", "b", false, Option.none⟩

/-- Store holding only `convAB`. -/
def dbLive : DB := ⟨[convAB], []⟩

/-- The same conversation, soft-deleted. -/
def convABdeleted : Conversations := ⟨"c1", "a", "b", true, some 5⟩

/-- Store holding only the soft-deleted conversation. -/
def dbDeleted : DB := ⟨[convABdeleted], []⟩

/-- A message from "a" in `convAB` whose status is READ. -/
def msgRead : Message := ⟨"m1", "c1", "a", "hi", .READ, 1⟩

/-- Store holding `convAB` and the READ message. -/
def dbRead : DB := ⟨[convAB], [msgRead]⟩

/-- An inbound frame whose `data` object is missing the required
`recipient_id` field, so pydantic validation fails. -/
def malformedFrame : RawFrame := ⟨some "send_message", some ⟨some "a", Option.none, some "hi"⟩⟩

/-- C1: a send whose sender is not one of the conversation's two
participants fails with HTTP 403 and leaves the message store unchanged. -/
theorem create_message_nonparticipant_unauthorized
    (db : DB) (conv : Conversations) (sender content newId : String) (now : Nat)
    (recipient : Option String)
    (hconv : convsWithId db conv.id = [conv])
    (hid : conv.id ≠ "") (hsender : sender ≠ "") (hcontent : content ≠ "")
    (h1 : sender ≠ conv.user_first_id) (h2 : sender ≠ conv.user_second_id) :
    create_message db ⟨some conv.id, some sender, recipient, some content⟩ newId now
      = (.error ⟨403, "Sender not authorized in this conversation"⟩, db) := by
  simp [create_message, falsy, hconv, scalarOneOrNone, hid, hsender, hcontent, h1, h2]

/-- C1 witness: sender "x" is not a participant of `convAB`, so the send
fails 403 and `dbLive` is unchanged. -/
theorem create_message_nonparticipant_unauthorized_witness :
    create_message dbLive ⟨some "c1", some "x", Option.none, some "hi"⟩ "m1" 2
      = (.error ⟨403, "Sender not authorized in this conversation"⟩, dbLive) :=
  create_message_nonparticipant_unauthorized dbLive convAB "x" "hi" "m1" 2 Option.none
    (by decide) (by decide) (by decide) (by decide) (by decide) (by decide)

/-- C2 counterexample: updating a READ message to status "SENT" (a
regression) succeeds and returns the message with status SENT; it does not
fail with HTTP 400 InvalidInput as the claim states. -/
theorem update_message_read_to_sent_succeeds :
    (update_message dbRead "m1" (some "SENT")).1 = .ok ⟨"m1", "c1", "a", "hi", .SENT, 1⟩ ∧
    (update_message dbRead "m1" (some "SENT")).1 ≠ .error ⟨400, "Invalid status value"⟩ := by
  refine ⟨rfl, fun h => Except.noConfusion h⟩

/-- C2 as amended: `update_message` never consults the current status of the
message.  Every status string that is a value of the enum is accepted from
every current status — forward transitions and regressions alike — and
written unconditionally onto the stored row. -/
theorem update_message_accepts_any_valid_status
    (db : DB) (mid s : String) (m : Message) (st : MessageStatus)
    (hmsg : msgsWithId db mid = [m]) (hs : s ≠ "")
    (hval : MessageStatus.ofValue s = some st) :
    (update_message db mid (some s)).1 = .ok { m with status := st } := by
  simp [update_message, falsy, hs, hval, get_message_by_id, hmsg, scalarOneOrNone]

/-- C2 witness: the READ message `msgRead` is updated to SENT: the
regression READ → SENT is accepted. -/
theorem update_message_accepts_any_valid_status_witness :
    (update_message dbRead "m1" (some "SENT")).1 = .ok ⟨"m1", "c1", "a", "hi", .SENT, 1⟩ :=
  update_message_accepts_any_valid_status dbRead "m1" "SENT" msgRead .SENT
    (by decide) (by decide) (by decide)

/-- C3 counterexample: a send to the soft-deleted conversation
`convABdeleted` (is_deleted = true) by participant "a" succeeds with status
SENT; it does not fail NotFound as the claim states. -/
theorem create_message_soft_deleted_succeeds :
    (create_message dbDeleted ⟨some "c1", some "a", Option.none, some "hi"⟩ "m1" 7).1
      = .ok ⟨"m1", "c1", "a", "hi", .SENT, 7⟩ ∧
    (create_message dbDeleted ⟨some "c1", some "a", Option.none, some "hi"⟩ "m1" 7).1
      ≠ .error ⟨404, "Conversation not found"⟩ := by
  refine ⟨rfl, fun h => Except.noConfusion h⟩

/-- C3 as amended: `create_message` never reads `is_deleted`: a send to a
soft-deleted conversation behaves exactly like a send to a live one and
succeeds for a participant sender; NotFound arises only when no conversation
row with the id exists at all. -/
theorem create_message_ignores_is_deleted
    (db : DB) (conv : Conversations) (sender content newId : String) (now : Nat)
    (hconv : convsWithId db conv.id = [conv])
    (_hdel : conv.is_deleted = true)
    (hpart : sender = conv.user_first_id ∨ sender = conv.user_second_id)
    (hid : conv.id ≠ "") (hsender : sender ≠ "") (hcontent : content ≠ "") :
    create_message db ⟨some conv.id, some sender, Option.none, some content⟩ newId now
      = (.ok ⟨newId, conv.id, sender, content, .SENT, now⟩,
         { db with messages := db.messages ++ [⟨newId, conv.id, sender, content, .SENT, now⟩] }) := by
  rcases hpart with h | h <;> subst h <;>
    simp [create_message, falsy, hconv, scalarOneOrNone, hid, hsender, hcontent]

/-- C3 witness: the soft-deleted store `dbDeleted` accepts the send from
participant "a". -/
theorem create_message_ignores_is_deleted_witness :
    create_message dbDeleted ⟨some "c1", some "a", Option.none, some "hi"⟩ "m1" 7
      = (.ok ⟨"m1", "c1", "a", "hi", .SENT, 7⟩,
         { dbDeleted with messages := dbDeleted.messages ++ [⟨"m1", "c1", "a", "hi", .SENT, 7⟩] }) :=
  create_message_ignores_is_deleted dbDeleted convABdeleted "a" "hi" "m1" 7
    (by decide) (by decide) (Or.inl (by decide)) (by decide) (by decide) (by decide)

/-- C5 counterexample: a send in `convAB` with sender "a" and recipient "a"
(recipient equals sender, so the recipient is NOT the other participant "b")
succeeds; it does not fail Unauthorized as the claim states. -/
theorem create_message_recipient_eq_sender_succeeds :
    (create_message dbLive ⟨some "c1", some "a", some "a", some "hi"⟩ "m1" 3).1
      = .ok ⟨"m1", "c1", "a", "hi", .SENT, 3⟩ ∧
    (create_message dbLive ⟨some "c1", some "a", some "a", some "hi"⟩ "m1" 3).1
      ≠ .error ⟨403, "Recipient not authorized in this conversation"⟩ := by
  refine ⟨rfl, fun h => Except.noConfusion h⟩

/-- C5 as amended: the recipient check is membership in the participant set
`{user_first_id, user_second_id}`, not equality with the other participant:
a given recipient that is neither participant fails 403 with the store
unchanged, while a recipient equal to the sender (a participant) is
accepted. -/
theorem create_message_recipient_nonparticipant_unauthorized
    (db : DB) (conv : Conversations) (sender r content newId : String) (now : Nat)
    (hconv : convsWithId db conv.id = [conv])
    (hpart : sender = conv.user_first_id ∨ sender = conv.user_second_id)
    (hr1 : r ≠ conv.user_first_id) (hr2 : r ≠ conv.user_second_id)
    (hid : conv.id ≠ "") (hsender : sender ≠ "") (hcontent : content ≠ "") (hr : r ≠ "") :
    create_message db ⟨some conv.id, some sender, some r, some content⟩ newId now
      = (.error ⟨403, "Recipient not authorized in this conversation"⟩, db) := by
  rcases hpart with h | h <;> subst h <;>
    simp [create_message, falsy, hconv, scalarOneOrNone, hid, hsender, hcontent, hr, hr1, hr2]

/-- C5 witness: recipient "z" is not a participant of `convAB`, so the send
from participant "a" fails 403 and `dbLive` is unchanged. -/
theorem create_message_recipient_nonparticipant_unauthorized_witness :
    create_message dbLive ⟨some "c1", some "a", some "z", some "hi"⟩ "m1" 3
      = (.error ⟨403, "Recipient not authorized in this conversation"⟩, dbLive) :=
  create_message_recipient_nonparticipant_unauthorized dbLive convAB "a" "z" "hi" "m1" 3
    (by decide) (Or.inl (by decide)) (by decide) (by decide) (by decide) (by decide)
    (by decide) (by decide)

/-- C10: the status strings accepted by `update_message` are exactly the
enum values "SENT", "DELIVIRED" and "READ"; the correctly spelled
"DELIVERED" is rejected with HTTP 400 "Invalid status value" (the enum
member DELIVERED carries the misspelled value "DELIVIRED"), while
"DELIVIRED" is accepted and stores status DELIVERED. -/
theorem update_message_status_strings
    (db : DB) (mid : String) (m : Message)
    (hmsg : msgsWithId db mid = [m]) :
    (∀ s : String,
        (MessageStatus.ofValue s).isSome ↔ (s = "SENT" ∨ s = "DELIVIRED" ∨ s = "READ")) ∧
    update_message db mid (some "DELIVERED") = (.error ⟨400, "Invalid status value"⟩, db) ∧
    (update_message db mid (some "DELIVIRED")).1 = .ok { m with status := .DELIVERED } := by
  refine ⟨?_, ?_, ?_⟩
  · intro s
    unfold MessageStatus.ofValue
    split
    · simp_all
    · split
      · simp_all
      · split
        · simp_all
        · simp_all
  · rfl
  · simp [update_message, falsy, MessageStatus.ofValue, get_message_by_id, hmsg, scalarOneOrNone]

/-- C10 witness: on the stored message `msgRead`, "DELIVERED" is rejected
with 400 and "DELIVIRED" is accepted. -/
theorem update_message_status_strings_witness :
    update_message dbRead "m1" (some "DELIVERED") = (.error ⟨400, "Invalid status value"⟩, dbRead) ∧
    (update_message dbRead "m1" (some "DELIVIRED")).1 = .ok ⟨"m1", "c1", "a", "hi", .DELIVERED, 1⟩ :=
  ⟨(update_message_status_strings dbRead "m1" msgRead (by decide)).2.1,
   (update_message_status_strings dbRead "m1" msgRead (by decide)).2.2⟩

/-- C6: looking up a conversation id for which no row exists does NOT fail
with 404 NotFound: the 404 raised inside the try block is caught by the
blanket `except Exception` and re-raised as the unclassified
500 "Unexpected server error!". -/
theorem get_conversation_by_id_missing_returns_500 :
    get_conversation_by_id (⟨[], []⟩ : DB) "c1" = .error ⟨500, "Unexpected server error!"⟩ ∧
    get_conversation_by_id (⟨[], []⟩ : DB) "c1" ≠ .error ⟨404, "Conversation not found"⟩ := by
  refine ⟨rfl, fun h => ?_⟩
  have h2 : (⟨500, "Unexpected server error!"⟩ : HTTPError) = ⟨404, "Conversation not found"⟩ :=
    Except.error.inj h
  exact absurd (congrArg HTTPError.status_code h2) (by decide)

/-- C7: soft-deleting the existing conversation `convAB` does not succeed:
`datetime` is not imported in `conversations_service.py`, so
`datetime.utcnow()` raises `NameError`, the session is rolled back, and the
call raises the unexpected-server-error 500 with the store unchanged. -/
theorem delete_conversation_existing_returns_500 :
    delete_conversation dbLive "c1" = (.error ⟨500, "Unexpected server error!"⟩, dbLive) ∧
    ∀ c : Conversations, (delete_conversation dbLive "c1").1 ≠ .ok c := by
  refine ⟨rfl, fun c h => Except.noConfusion h⟩

/-- C8: for every store and every conversation id, the list-messages
endpoint raises `AttributeError`: it calls
`service.get_last_conversation_history`, an attribute the class
`MessagesService` does not define, so it never returns the conversation's
messages. -/
theorem get_conversation_messages_attribute_error
    (db : DB) (conversation_id : String) :
    get_conversation_messages db conversation_id
      = .attributeError "get_last_conversation_history" := rfl

/-- C9 counterexample: the malformed frame `malformedFrame` (its data object
lacks the required recipient_id, so schema validation fails) makes the loop
send the error frame and then break: the session state after the step is
closed, not active, so the session does not continue accepting frames. -/
theorem ws_malformed_frame_closes_session :
    wsStep dbLive "c1" (.jsonFrame malformedFrame) "m2" 0
      = ⟨[.errorFrame "Unexpected server error."], .closed, dbLive⟩ ∧
    (wsStep dbLive "c1" (.jsonFrame malformedFrame) "m2" 0).state ≠ .active := by
  refine ⟨rfl, fun h => SessionState.noConfusion h⟩

/-- C9 as amended: in the Active state, a malformed inbound frame (one that
fails pydantic schema validation) raises a `ValidationError` that is handled
by the blanket `except Exception`: the loop sends the error frame
`{error: "Unexpected server error."}` back to the same session and then
breaks, closing the session; the store is untouched.  (Only handler-raised
`HTTPException`s leave the session active.) -/
theorem ws_malformed_frame_error_then_close
    (db : DB) (conversation_id newId : String) (now : Nat) (raw : RawFrame)
    (hmal : parseSendMessageAction raw = Option.none) :
    wsStep db conversation_id (.jsonFrame raw) newId now
      = ⟨[.errorFrame "Unexpected server error."], .closed, db⟩ := by
  simp [wsStep, hmal]

/-- C9 witness: the concrete malformed frame yields the error frame and a
closed session on the live store. -/
theorem ws_malformed_frame_error_then_close_witness :
    wsStep dbLive "c1" (.jsonFrame malformedFrame) "m2" 0
      = ⟨[.errorFrame "Unexpected server error."], .closed, dbLive⟩ :=
  ws_malformed_frame_error_then_close dbLive "c1" "m2" 0 malformedFrame (by decide)

/-- Helper for C4: under the validity preconditions (both ids truthy and
distinct), `create_conversation` reduces to a lookup / insert on the
canonical pair `(min a b, max a b)` of the string order — the order the
source's `if user_first_id < user_second_id` swap establishes. -/
theorem create_conversation_eq
    (db : DB) (a b newId : String)
    (ha : a ≠ "") (hb : b ≠ "") (hab : a ≠ b) :
    create_conversation db (some a) (some b) newId =
      (match scalarOneOrNone (convsWithPair db (min a b) (max a b)) with
      | .one existing => (.ok existing, db)
      | .multiple => (.error ⟨500, "Unexpected server error!"⟩, db)
      | .none =>
        (.ok ⟨newId, min a b, max a b, false, Option.none⟩,
         { db with conversations :=
            db.conversations ++ [⟨newId, min a b, max a b, false, Option.none⟩] })) := by
  rcases lt_or_gt_of_ne hab with h | h
  · have hmin : min a b = a := min_eq_left h.le
    have hmax : max a b = b := max_eq_right h.le
    rw [hmin, hmax]
    simp [create_conversation, falsy, ha, hb, hab, h]
  · have hmin : min a b = b := min_eq_right h.le
    have hmax : max a b = a := max_eq_left h.le
    rw [hmin, hmax]
    have hnlt : ¬ a < b := not_lt_of_gt h
    simp [create_conversation, falsy, ha, hb, hab, hnlt]

/-- C4: with two distinct (truthy) participant ids and a store satisfying
the unique-pair constraint, the conversation returned by
`create_conversation` stores the pair smaller-first in the string order
(user_first_id = min, user_second_id = max), and a second call on the same
unordered pair — with the arguments in the opposite order — returns the very
same conversation. -/
theorem create_conversation_canonical_idempotent
    (db : DB) (a b id1 id2 : String)
    (ha : a ≠ "") (hb : b ≠ "") (hab : a ≠ b)
    (huniq : (convsWithPair db (min a b) (max a b)).length ≤ 1) :
    ∃ c : Conversations,
      (create_conversation db (some a) (some b) id1).1 = .ok c ∧
      c.user_first_id = min a b ∧ c.user_second_id = max a b ∧
      (create_conversation
        (create_conversation db (some a) (some b) id1).2 (some b) (some a) id2).1 = .ok c := by
  have e1 := create_conversation_eq db a b id1 ha hb hab
  have hminc : min b a = min a b := min_comm b a
  have hmaxc : max b a = max a b := max_comm b a
  rcases hl : convsWithPair db (min a b) (max a b) with _ | ⟨x, _ | ⟨y, ys⟩⟩
  · -- no row on the canonical pair yet: a new conversation is inserted
    rw [hl] at e1
    simp only [scalarOneOrNone] at e1
    have hpair2 : convsWithPair
        { db with conversations :=
            db.conversations ++ [⟨id1, min a b, max a b, false, Option.none⟩] }
        (min a b) (max a b) = [⟨id1, min a b, max a b, false, Option.none⟩] := by
      simp only [convsWithPair] at hl ⊢
      rw [List.filter_append, hl]
      simp
    refine ⟨⟨id1, min a b, max a b, false, Option.none⟩, ?_, rfl, rfl, ?_⟩
    · rw [e1]
    · rw [e1]
      rw [create_conversation_eq _ b a id2 hb ha (Ne.symm hab), hminc, hmaxc, hpair2]
      rfl
  · -- exactly one row on the canonical pair: it is returned unchanged, twice
    rw [hl] at e1
    simp only [scalarOneOrNone] at e1
    have hx : x ∈ convsWithPair db (min a b) (max a b) := by
      rw [hl]
      exact List.mem_singleton_self x
    simp only [convsWithPair, List.mem_filter, Bool.and_eq_true, beq_iff_eq] at hx
    refine ⟨x, ?_, hx.2.1, hx.2.2, ?_⟩
    · rw [e1]
    · rw [e1]
      rw [create_conversation_eq db b a id2 hb ha (Ne.symm hab), hminc, hmaxc, hl]
      rfl
  · -- two or more rows on the same pair: excluded by the unique constraint
    rw [hl] at huniq
    simp at huniq

/-- C4 witness: creating (a, b) on an empty store and then (b, a) on the
resulting store returns the same canonical conversation both times. -/
theorem create_conversation_canonical_idempotent_witness :
    ∃ c : Conversations,
      (create_conversation (⟨[], []⟩ : DB) (some "a") (some "b") "c1").1 = .ok c ∧
      c.user_first_id = min "a" "b" ∧ c.user_second_id = max "a" "b" ∧
      (create_conversation
        (create_conversation (⟨[], []⟩ : DB) (some "a") (some "b") "c1").2
        (some "b") (some "a") "c2").1 = .ok c :=
  create_conversation_canonical_idempotent ⟨[], []⟩ "a" "b" "c1" "c2"
    (by decide) (by decide) (by decide) (by simp [convsWithPair])

end ELoveChat
